import Mathlib

/-!
# Verification of the Adafruit_VEML6070 UV sensor driver

A shallow embedding of `src/Adafruit_VEML6070.cpp` (the template class
`Adafruit_VEML6070<I2C>`).  The driver's only state is the cached 8-bit
command register `_commandRegister.reg` and the bus transport handle.
We model:

* the command register as a `Nat` (kept below 256; every mutation is a
  mask-and-shift on the byte, mirroring the C++ bitfield assignment);
* the bus transport as a trace of emitted events plus an oracle
  (`BusEnv`) answering each successive `requestFrom` with the byte count
  actually received and the byte that a following `read()` would yield;
* the timebase (`delay(63)`) as `delay` events in the trace.

Each driver method becomes a pure function from the driver state (cached
register plus the index of the next `requestFrom` answer to consume) to
its result, the new state, and the list of bus/timebase events it emits,
in order.
-/

set_option autoImplicit false
set_option maxRecDepth 100000

namespace VEML6070

/-- Modelled from the spec: the device address constants come from the
header `Adafruit_VEML6070.h`, which is not part of the provided sources;
the spec's bus-address table (§3) gives `ADDR_ARA = 0x0C` (alert
response), `ADDR_CMD = ADDR_DATA_L = 0x38` (command write / low-byte
read) and `ADDR_DATA_H = 0x39` (high-byte read). -/
def VEML6070_ADDR_ARA : Nat := 0x0C

/-- Modelled from the spec: command-write and data-low address `0x38`
(see `VEML6070_ADDR_ARA`). -/
def VEML6070_ADDR_L : Nat := 0x38

/-- Modelled from the spec: data-high address `0x39`
(see `VEML6070_ADDR_ARA`). -/
def VEML6070_ADDR_H : Nat := 0x39

/-- One event emitted by the driver towards the bus transport or the
timebase, in program order:
`busBegin` is `_i2c->begin()`, `beginTransmission`/`write`/
`endTransmission` are the write-transaction primitives, `requestFrom a n`
is `_i2c->requestFrom(a, n)`, `read` is `_i2c->read()`, and `delay ms`
is the Arduino `delay(ms)` timebase call. -/
inductive Event where
  | busBegin : Event
  | beginTransmission : Nat → Event
  | write : Nat → Event
  | endTransmission : Event
  | requestFrom : Nat → Nat → Event
  | read : Event
  | delay : Nat → Event
deriving DecidableEq, Repr

/-- The bus environment: for the `k`-th `requestFrom` issued by the
driver (counting from construction), `resp k = (count, byte)` where
`count` is the value `requestFrom` returns (bytes actually received) and
`byte` is the datum a following `_i2c->read()` would pop from the
receive buffer filled by that request.  (Each `requestFrom` of this
driver asks for one byte, and each Arduino `requestFrom` resets the
receive buffer, so pairing the byte with its request is faithful.) -/
structure BusEnv where
  resp : Nat → Nat × Nat

/-- Driver state: the cached command byte `_commandRegister.reg` and the
index of the next `requestFrom` answer to be consumed from the
environment. -/
structure DState where
  reg : Nat
  k : Nat
deriving DecidableEq, Repr

/-- Constructor: `_commandRegister.reg = 0x02` (reserved bit 1 set), no
bus traffic. -/
def initState : DState := { reg := 0x02, k := 0 }

/-- Modelled from the spec: the bitfield layout of the command register
(`commandRegister.bit` in the missing header), per the spec's table
(§3): bit 0 `SD`, bit 1 reserved-as-1, bits 2–3 `IT`, bit 4 `ACK_THD`,
bit 5 `ACK`.  A C++ bitfield assignment `reg.bit.F = v` stores
`v mod 2^width` into the field's bits and leaves every other bit of the
byte unchanged; `setField reg lo width v` is that mask-and-shift. -/
def setField (reg lo width v : Nat) : Nat :=
  (reg &&& (255 ^^^ ((2 ^ width - 1) <<< lo))) ||| ((v % 2 ^ width) <<< lo)

/-- The IT field (bits 2–3) of a command byte, as read back by
`_commandRegister.bit.IT`. -/
def getIT (reg : Nat) : Nat := (reg >>> 2) &&& 3

/-- C++ `bool` stored into a 1-bit bitfield: `true ↦ 1`, `false ↦ 0`. -/
def bitOfBool (b : Bool) : Nat := if b then 1 else 0

/-- `writeCommand()`: `_i2c->begin(); beginTransmission(VEML6070_ADDR_L);
write(_commandRegister.reg); endTransmission();`.  State is unchanged;
only the trace is produced. -/
def writeCommand (s : DState) : List Event :=
  [Event.busBegin, Event.beginTransmission VEML6070_ADDR_L,
   Event.write s.reg, Event.endTransmission]

/-- `clearAck()`: `_i2c->begin(); bool ret = _i2c->requestFrom(VEML6070_ADDR_ARA, 1);
return ret;`.  The C++ `bool` conversion makes `ret` true iff the byte
count returned by `requestFrom` is nonzero (the device acknowledged at
the alert-response address).  The received byte is never `read()`:
the answer slot `k` is consumed and its byte discarded. -/
def clearAck (env : BusEnv) (s : DState) : Bool × DState × List Event :=
  (((env.resp s.k).1 != 0), { s with k := s.k + 1 },
   [Event.busBegin, Event.requestFrom VEML6070_ADDR_ARA 1])

/-- `begin(itime)`: `_commandRegister.bit.IT = itime; clearAck(); writeCommand();`. -/
def begin (env : BusEnv) (s : DState) (itime : Nat) : DState × List Event :=
  let s1 : DState := { s with reg := setField s.reg 2 2 itime }
  let r := clearAck env s1
  (r.2.1, r.2.2 ++ writeCommand r.2.1)

/-- `setInterrupt(state, level)`: `_commandRegister.bit.ACK = state;
_commandRegister.bit.ACK_THD = level; clearAck(); writeCommand();`
(ACK is bit 5, ACK_THD is bit 4). -/
def setInterrupt (env : BusEnv) (s : DState) (state level : Bool) :
    DState × List Event :=
  let s1 : DState :=
    { s with reg := setField (setField s.reg 5 1 (bitOfBool state)) 4 1 (bitOfBool level) }
  let r := clearAck env s1
  (r.2.1, r.2.2 ++ writeCommand r.2.1)

/-- `sleep(state)`: `_commandRegister.bit.SD = state; writeCommand();`
(SD is bit 0; no `clearAck`). -/
def sleep (s : DState) (state : Bool) : DState × List Event :=
  let s1 : DState := { s with reg := setField s.reg 0 1 (bitOfBool state) }
  (s1, writeCommand s1)

/-- The loop `uint8_t itCount = 1; for (uint8_t i = IT; i > 0; i--)
itCount *= 2;` of `waitForNext()`; the `uint8_t` accumulator wraps
modulo 256. -/
def itCountLoop : Nat → Nat → Nat
  | 0, acc => acc
  | i + 1, acc => itCountLoop i (acc * 2 % 256)

/-- `itCount` as computed by `waitForNext()` from the cached byte. -/
def itCount (reg : Nat) : Nat := itCountLoop (getIT reg) 1

/-- `waitForNext()`: `for (uint8_t i = 0; i < itCount; i++) delay(63);`
— a trace of `itCount` calls `delay(63)`. -/
def waitForNext (s : DState) : List Event :=
  List.replicate (itCount s.reg) (Event.delay 63)

/-- `readUV()`: wait for one integration period, then
`if (requestFrom(ADDR_H, 1) != 1) return -1; uvi = read(); uvi <<= 8;
if (requestFrom(ADDR_L, 1) != 1) return -1; uvi |= read(); return uvi;`.
The C++ `return -1` widens to `uint16_t` `0xFFFF`.  Each received byte
is a `uint8_t`, hence the `% 256`. -/
def readUV (env : BusEnv) (s : DState) : Nat × DState × List Event :=
  let tw := waitForNext s
  let a1 := env.resp s.k
  if a1.1 ≠ 1 then
    (0xFFFF, { s with k := s.k + 1 }, tw ++ [Event.requestFrom VEML6070_ADDR_H 1])
  else
    let uvi := (a1.2 % 256) <<< 8
    let a2 := env.resp (s.k + 1)
    if a2.1 ≠ 1 then
      (0xFFFF, { s with k := s.k + 2 },
       tw ++ [Event.requestFrom VEML6070_ADDR_H 1, Event.read,
              Event.requestFrom VEML6070_ADDR_L 1])
    else
      (uvi ||| (a2.2 % 256), { s with k := s.k + 2 },
       tw ++ [Event.requestFrom VEML6070_ADDR_H 1, Event.read,
              Event.requestFrom VEML6070_ADDR_L 1, Event.read])

/-- One public API call, for reasoning about arbitrary call sequences. -/
inductive ApiCall where
  | beginC : Nat → ApiCall
  | setInterruptC : Bool → Bool → ApiCall
  | sleepC : Bool → ApiCall
  | readUVC : ApiCall
  | clearAckC : ApiCall
deriving DecidableEq, Repr

/-- Execute one public API call, dropping its return value. -/
def step (env : BusEnv) (s : DState) : ApiCall → DState × List Event
  | ApiCall.beginC it => begin env s it
  | ApiCall.setInterruptC st lv => setInterrupt env s st lv
  | ApiCall.sleepC st => sleep s st
  | ApiCall.readUVC => ((readUV env s).2.1, (readUV env s).2.2)
  | ApiCall.clearAckC => ((clearAck env s).2.1, (clearAck env s).2.2)

/-- Execute a sequence of public API calls, concatenating the traces. -/
def run (env : BusEnv) : List ApiCall → DState → DState × List Event
  | [], s => (s, [])
  | c :: cs, s =>
    let r1 := step env s c
    let r2 := run env cs r1.1
    (r2.1, r1.2 ++ r2.2)

/-- The bytes transmitted by write transactions, in order. -/
def writes : List Event → List Nat
  | [] => []
  | Event.write b :: es => b :: writes es
  | _ :: es => writes es

/-- Total milliseconds of timebase blocking in a trace. -/
def delayTotal : List Event → Nat
  | [] => 0
  | Event.delay ms :: es => ms + delayTotal es
  | _ :: es => delayTotal es

/-- An environment whose every `requestFrom` succeeds with one byte of
value 0 (used to instantiate universally quantified theorems). -/
def envOk : BusEnv := { resp := fun _ => (1, 0) }

/-- An environment whose every `requestFrom` receives zero bytes. -/
def envFail : BusEnv := { resp := fun _ => (0, 0) }

/-- An environment whose first `requestFrom` succeeds and whose second
one receives zero bytes. -/
def envSecondFail : BusEnv := { resp := fun k => if k = 0 then (1, 0) else (0, 0) }

/-- Number of occurrences of an event in a trace. -/
def countEvent (e : Event) : List Event → Nat
  | [] => 0
  | e' :: es => (if e' = e then 1 else 0) + countEvent e es

/-! ### Helper lemmas -/

theorem setField_mod (r lo w v : Nat) : setField r lo w v = setField r lo w (v % 2 ^ w) := by
  simp [setField]

theorem bitOfBool_lt (b : Bool) : bitOfBool b < 2 := by cases b <;> decide

theorem getIT_lt (r : Nat) : getIT r < 4 := Nat.lt_succ_of_le Nat.and_le_right

theorem itCountLoop_eq : ∀ n < 4, itCountLoop n 1 = 2 ^ n := by decide

theorem itCount_eq (r : Nat) : itCount r = 2 ^ getIT r :=
  itCountLoop_eq (getIT r) (getIT_lt r)

theorem setField_IT_bit1 : ∀ r < 256, ∀ v < 4,
    Nat.testBit (setField r 2 2 v) 1 = Nat.testBit r 1 ∧ setField r 2 2 v < 256 := by
  decide

theorem setField_ACK_bit1 : ∀ r < 256, ∀ v < 2,
    Nat.testBit (setField r 5 1 v) 1 = Nat.testBit r 1 ∧ setField r 5 1 v < 256 := by
  decide

theorem setField_THD_bit1 : ∀ r < 256, ∀ v < 2,
    Nat.testBit (setField r 4 1 v) 1 = Nat.testBit r 1 ∧ setField r 4 1 v < 256 := by
  decide

theorem setField_SD_bit1 : ∀ r < 256, ∀ v < 2,
    Nat.testBit (setField r 0 1 v) 1 = Nat.testBit r 1 ∧ setField r 0 1 v < 256 := by
  decide

theorem delayTotal_append (a b : List Event) :
    delayTotal (a ++ b) = delayTotal a + delayTotal b := by
  induction a with
  | nil => simp [delayTotal]
  | cons e es ih => cases e <;> simp [delayTotal, ih, Nat.add_assoc]

theorem delayTotal_replicate (n : Nat) :
    delayTotal (List.replicate n (Event.delay 63)) = 63 * n := by
  induction n with
  | zero => simp [delayTotal]
  | succ m ih => simp [List.replicate_succ, delayTotal, ih]; ring

theorem writes_append (a b : List Event) :
    writes (a ++ b) = writes a ++ writes b := by
  induction a with
  | nil => simp [writes]
  | cons e es ih => cases e <;> simp [writes, ih]

theorem writes_replicate_delay (n : Nat) :
    writes (List.replicate n (Event.delay 63)) = [] := by
  induction n with
  | zero => simp [writes]
  | succ m ih => simp [List.replicate_succ, writes, ih]

theorem countEvent_append (e : Event) (a b : List Event) :
    countEvent e (a ++ b) = countEvent e a + countEvent e b := by
  induction a with
  | nil => simp [countEvent]
  | cons e' es ih => simp [countEvent, ih]; omega

theorem countEvent_replicate_delay (e : Event) (n ms : Nat)
    (h : e ≠ Event.delay ms) :
    countEvent e (List.replicate n (Event.delay ms)) = 0 := by
  induction n with
  | zero => simp [countEvent]
  | succ m ih => simp [List.replicate_succ, countEvent, ih, Ne.symm h]

theorem setField_interrupt_bits : ∀ r < 256, ∀ state : Bool, ∀ level : Bool,
    Nat.testBit (setField (setField r 5 1 (bitOfBool state)) 4 1 (bitOfBool level)) 5 = state ∧
    Nat.testBit (setField (setField r 5 1 (bitOfBool state)) 4 1 (bitOfBool level)) 4 = level ∧
    (∀ i ∈ [0, 1, 6, 7],
      Nat.testBit (setField (setField r 5 1 (bitOfBool state)) 4 1 (bitOfBool level)) i =
        Nat.testBit r i) ∧
    getIT (setField (setField r 5 1 (bitOfBool state)) 4 1 (bitOfBool level)) = getIT r := by
  decide

theorem setField_getIT : ∀ r < 256, ∀ c < 4, getIT (setField r 2 2 c) = c := by
  decide

theorem setField_SD_bit0 : ∀ r < 256, ∀ state : Bool,
    Nat.testBit (setField r 0 1 (bitOfBool state)) 0 = state := by
  decide

/-! ### Claims -/

/-- C6: each single call to `begin` and each single call to
`setInterrupt` emits, in order, exactly one 1-byte read request from
`0x0C` (inside `clearAck`) followed by exactly one write transaction to
`0x38` (inside `writeCommand`), and no other bus transactions.  The two
`busBegin` events are the transport's `begin()` initialization calls,
not bus transactions.  The full trace equality exhibits the exact event
sequence. -/
theorem C6_clear_before_write (env : BusEnv) (s : DState) (itime : Nat)
    (state level : Bool) :
    (begin env s itime).2 =
      [Event.busBegin, Event.requestFrom VEML6070_ADDR_ARA 1,
       Event.busBegin, Event.beginTransmission VEML6070_ADDR_L,
       Event.write (setField s.reg 2 2 itime), Event.endTransmission] ∧
    (setInterrupt env s state level).2 =
      [Event.busBegin, Event.requestFrom VEML6070_ADDR_ARA 1,
       Event.busBegin, Event.beginTransmission VEML6070_ADDR_L,
       Event.write (setField (setField s.reg 5 1 (bitOfBool state)) 4 1 (bitOfBool level)),
       Event.endTransmission] := by
  constructor <;> rfl

/-- C9: `clearAck` issues exactly one 1-byte read request to the
alert-response address `0x0C` and returns true iff the device
acknowledged (the transport reports a nonzero byte count, i.e. an ACK
condition was pending).  The received byte is discarded: the answer
slot `s.k` is consumed (`k` advances to `s.k + 1`) and its byte
component is never returned — every later `read` of the driver draws
from a later `requestFrom`'s slot. -/
theorem C9_clearAck_spec (env : BusEnv) (s : DState) :
    clearAck env s =
      (((env.resp s.k).1 != 0), { s with k := s.k + 1 },
       [Event.busBegin, Event.requestFrom VEML6070_ADDR_ARA 1]) ∧
    (clearAck envOk initState).1 = true := by
  constructor <;> rfl

/-- C10: neither `readUV` (whether it succeeds or returns the `0xFFFF`
sentinel) nor `clearAck` (whatever boolean it returns) modifies the
cached command register. -/
theorem C10_readUV_clearAck_frame (env : BusEnv) (s : DState) :
    (readUV env s).2.1.reg = s.reg ∧ (clearAck env s).2.1.reg = s.reg := by
  have h : (readUV env s).2.1.reg = s.reg := by
    simp only [readUV]
    split
    · rfl
    · split <;> rfl
  exact ⟨h, rfl⟩

/-- C7: `sleep state` sets the SD bit (bit 0) of the cached command
byte to `state` and transmits the full byte in one write transaction to
`0x38`, with no alert-clear: the trace contains no read request to
`0x0C`.  On a freshly constructed driver, `sleep true` writes `0x03`. -/
theorem C7_sleep_spec (s : DState) (state : Bool) (hreg : s.reg < 256) :
    sleep s state =
      ({ s with reg := setField s.reg 0 1 (bitOfBool state) },
       [Event.busBegin, Event.beginTransmission VEML6070_ADDR_L,
        Event.write (setField s.reg 0 1 (bitOfBool state)), Event.endTransmission]) ∧
    Nat.testBit (setField s.reg 0 1 (bitOfBool state)) 0 = state ∧
    countEvent (Event.requestFrom VEML6070_ADDR_ARA 1) (sleep s state).2 = 0 ∧
    (sleep initState true).2 =
      [Event.busBegin, Event.beginTransmission VEML6070_ADDR_L,
       Event.write 0x03, Event.endTransmission] := by
  exact ⟨rfl, setField_SD_bit0 s.reg hreg state, rfl, rfl⟩

/-- Witness for `C7_sleep_spec` at `s = initState`, `state = true`. -/
theorem C7_sleep_spec_witness :
    sleep initState true =
      ({ initState with reg := setField initState.reg 0 1 (bitOfBool true) },
       [Event.busBegin, Event.beginTransmission VEML6070_ADDR_L,
        Event.write (setField initState.reg 0 1 (bitOfBool true)), Event.endTransmission]) ∧
    Nat.testBit (setField initState.reg 0 1 (bitOfBool true)) 0 = true ∧
    countEvent (Event.requestFrom VEML6070_ADDR_ARA 1) (sleep initState true).2 = 0 ∧
    (sleep initState true).2 =
      [Event.busBegin, Event.beginTransmission VEML6070_ADDR_L,
       Event.write 0x03, Event.endTransmission] :=
  C7_sleep_spec initState true (by decide)

/-- C4: `begin code` transmits exactly one command byte, whose IT field
(bits 2–3) equals `code`, for each of the four codes; on a freshly
constructed driver, `begin 1` transmits the byte `0x06`. -/
theorem C4_begin_IT_roundtrip (env : BusEnv) (s : DState) (code : Nat)
    (hreg : s.reg < 256) (hcode : code < 4) :
    writes (begin env s code).2 = [setField s.reg 2 2 code] ∧
    getIT (setField s.reg 2 2 code) = code ∧
    (begin envOk initState 1).2 =
      [Event.busBegin, Event.requestFrom VEML6070_ADDR_ARA 1,
       Event.busBegin, Event.beginTransmission VEML6070_ADDR_L,
       Event.write 0x06, Event.endTransmission] := by
  exact ⟨rfl, setField_getIT s.reg hreg code hcode, rfl⟩

/-- Witness for `C4_begin_IT_roundtrip` at `s = initState`, `code = 1`. -/
theorem C4_begin_IT_roundtrip_witness :
    writes (begin envOk initState 1).2 = [setField initState.reg 2 2 1] ∧
    getIT (setField initState.reg 2 2 1) = 1 ∧
    (begin envOk initState 1).2 =
      [Event.busBegin, Event.requestFrom VEML6070_ADDR_ARA 1,
       Event.busBegin, Event.beginTransmission VEML6070_ADDR_L,
       Event.write 0x06, Event.endTransmission] :=
  C4_begin_IT_roundtrip envOk initState 1 (by decide) (by decide)

/-- C5: after `setInterrupt state level` the transmitted byte has bit 5
equal to `state` and bit 4 equal to `level`, and the remaining bits
(SD bit 0, reserved bit 1, the IT field bits 2–3, and bits 6–7) keep
their previous cached values; on a freshly constructed driver,
`setInterrupt true true` transmits `0x32`. -/
theorem C5_setInterrupt_spec (env : BusEnv) (s : DState) (state level : Bool)
    (hreg : s.reg < 256) :
    writes (setInterrupt env s state level).2 =
      [setField (setField s.reg 5 1 (bitOfBool state)) 4 1 (bitOfBool level)] ∧
    Nat.testBit (setField (setField s.reg 5 1 (bitOfBool state)) 4 1 (bitOfBool level)) 5
      = state ∧
    Nat.testBit (setField (setField s.reg 5 1 (bitOfBool state)) 4 1 (bitOfBool level)) 4
      = level ∧
    (∀ i ∈ [0, 1, 6, 7],
      Nat.testBit (setField (setField s.reg 5 1 (bitOfBool state)) 4 1 (bitOfBool level)) i =
        Nat.testBit s.reg i) ∧
    getIT (setField (setField s.reg 5 1 (bitOfBool state)) 4 1 (bitOfBool level))
      = getIT s.reg ∧
    writes (setInterrupt envOk initState true true).2 = [0x32] := by
  obtain ⟨h5, h4, hrest, hIT⟩ := setField_interrupt_bits s.reg hreg state level
  exact ⟨rfl, h5, h4, hrest, hIT, rfl⟩

/-- Witness for `C5_setInterrupt_spec` at `s = initState`,
`state = level = true`. -/
theorem C5_setInterrupt_spec_witness :
    writes (setInterrupt envOk initState true true).2 =
      [setField (setField initState.reg 5 1 (bitOfBool true)) 4 1 (bitOfBool true)] ∧
    Nat.testBit (setField (setField initState.reg 5 1 (bitOfBool true)) 4 1 (bitOfBool true)) 5
      = true ∧
    Nat.testBit (setField (setField initState.reg 5 1 (bitOfBool true)) 4 1 (bitOfBool true)) 4
      = true ∧
    (∀ i ∈ [0, 1, 6, 7],
      Nat.testBit (setField (setField initState.reg 5 1 (bitOfBool true)) 4 1 (bitOfBool true)) i =
        Nat.testBit initState.reg i) ∧
    getIT (setField (setField initState.reg 5 1 (bitOfBool true)) 4 1 (bitOfBool true))
      = getIT initState.reg ∧
    writes (setInterrupt envOk initState true true).2 = [0x32] :=
  C5_setInterrupt_spec envOk initState true true (by decide)

/-- C1: on a successful call (both 1-byte requests receive exactly one
byte, `hi` then `lo`), `readUV` first emits `2 ^ IT` timebase calls of
63 ms each — blocking for exactly `63 * 2 ^ IT` milliseconds, `IT`
being the integration-time code of the cached command byte — then
exactly one 1-byte read request to `0x39` followed by exactly one
1-byte read request to `0x38`, and returns `(hi <<< 8) ||| lo`. -/
theorem C1_readUV_success (env : BusEnv) (s : DState) (hi lo : Nat)
    (h1 : env.resp s.k = (1, hi)) (h2 : env.resp (s.k + 1) = (1, lo))
    (hhi : hi < 256) (hlo : lo < 256) :
    readUV env s =
      ((hi <<< 8) ||| lo, { s with k := s.k + 2 },
       List.replicate (2 ^ getIT s.reg) (Event.delay 63) ++
         [Event.requestFrom VEML6070_ADDR_H 1, Event.read,
          Event.requestFrom VEML6070_ADDR_L 1, Event.read]) ∧
    delayTotal (readUV env s).2.2 = 63 * 2 ^ getIT s.reg := by
  have htr : readUV env s =
      ((hi <<< 8) ||| lo, { s with k := s.k + 2 },
       List.replicate (2 ^ getIT s.reg) (Event.delay 63) ++
         [Event.requestFrom VEML6070_ADDR_H 1, Event.read,
          Event.requestFrom VEML6070_ADDR_L 1, Event.read]) := by
    simp [readUV, h1, h2, waitForNext, itCount_eq,
      Nat.mod_eq_of_lt hhi, Nat.mod_eq_of_lt hlo]
  refine ⟨htr, ?_⟩
  rw [htr]
  simp [delayTotal_append, delayTotal_replicate, delayTotal, Nat.mul_comm]

/-- Witness for `C1_readUV_success` at `env = envOk`, `s = initState`,
`hi = lo = 0`. -/
theorem C1_readUV_success_witness :
    readUV envOk initState =
      (((0 : Nat) <<< 8) ||| 0, { initState with k := initState.k + 2 },
       List.replicate (2 ^ getIT initState.reg) (Event.delay 63) ++
         [Event.requestFrom VEML6070_ADDR_H 1, Event.read,
          Event.requestFrom VEML6070_ADDR_L 1, Event.read]) ∧
    delayTotal (readUV envOk initState).2.2 = 63 * 2 ^ getIT initState.reg :=
  C1_readUV_success envOk initState 0 0 rfl rfl (by decide) (by decide)

/-- C2: if the 1-byte request to the high-byte address `0x39` receives
zero bytes, `readUV` returns the sentinel `0xFFFF` (`-1` widened to
`uint16_t`) and never issues the low-byte request to `0x38`; likewise,
if the high-byte request succeeds but the low-byte request receives
zero bytes, `readUV` returns the same sentinel. -/
theorem C2_readUV_short_read (env env2 : BusEnv) (s s2 : DState)
    (h : (env.resp s.k).1 = 0)
    (h2a : (env2.resp s2.k).1 = 1) (h2b : (env2.resp (s2.k + 1)).1 = 0) :
    (readUV env s).1 = 0xFFFF ∧
    countEvent (Event.requestFrom VEML6070_ADDR_L 1) (readUV env s).2.2 = 0 ∧
    (readUV env2 s2).1 = 0xFFFF := by
  refine ⟨?_, ?_, ?_⟩
  · simp [readUV, h]
  · have htr : (readUV env s).2.2 =
        waitForNext s ++ [Event.requestFrom VEML6070_ADDR_H 1] := by
      simp [readUV, h]
    rw [htr, countEvent_append, waitForNext,
      countEvent_replicate_delay _ _ _ (by simp)]
    simp [countEvent, VEML6070_ADDR_H, VEML6070_ADDR_L]
  · simp [readUV, h2a, h2b]

/-- Witness for `C2_readUV_short_read` at `env = envFail`,
`env2 = envSecondFail`, `s = s2 = initState`. -/
theorem C2_readUV_short_read_witness :
    (readUV envFail initState).1 = 0xFFFF ∧
    countEvent (Event.requestFrom VEML6070_ADDR_L 1) (readUV envFail initState).2.2 = 0 ∧
    (readUV envSecondFail initState).1 = 0xFFFF :=
  C2_readUV_short_read envFail envSecondFail initState initState rfl rfl rfl

/-- C8 counterexample: the claim says every public call's first bus
transaction is preceded by a transport `begin()` call, but `readUV`
never invokes the transport's `begin()` at all: on a freshly
constructed driver (with an all-succeeding bus) its trace contains a
read request (to `0x39`) and zero `busBegin` events. -/
theorem C8_cex_readUV_no_busBegin :
    countEvent Event.busBegin (readUV envOk initState).2.2 = 0 ∧
    countEvent (Event.requestFrom VEML6070_ADDR_H 1) (readUV envOk initState).2.2 = 1 := by
  decide

/-- C8 (amended): `begin`, `setInterrupt`, `sleep` and `clearAck` each
call the transport's `begin()` before their first bus transaction (it
is the very first event of their traces), but `readUV` issues its read
requests without any transport `begin()` call: its trace contains no
`busBegin` event. -/
theorem C8_transport_begin (env : BusEnv) (s : DState) (itime : Nat)
    (state level b : Bool) :
    ((begin env s itime).2).head? = some Event.busBegin ∧
    ((setInterrupt env s state level).2).head? = some Event.busBegin ∧
    ((sleep s b).2).head? = some Event.busBegin ∧
    ((clearAck env s).2.2).head? = some Event.busBegin ∧
    countEvent Event.busBegin (readUV env s).2.2 = 0 := by
  refine ⟨rfl, rfl, rfl, rfl, ?_⟩
  simp only [readUV]
  split
  · rw [countEvent_append, waitForNext,
      countEvent_replicate_delay _ _ _ (by simp)]
    simp [countEvent]
  · split <;>
    · rw [countEvent_append, waitForNext,
        countEvent_replicate_delay _ _ _ (by simp)]
      simp [countEvent]

theorem readUV_reg (env : BusEnv) (s : DState) : (readUV env s).2.1.reg = s.reg := by
  simp only [readUV]
  split
  · rfl
  · split <;> rfl

theorem writes_readUV (env : BusEnv) (s : DState) : writes (readUV env s).2.2 = [] := by
  simp only [readUV]
  split
  · rw [writes_append, waitForNext, writes_replicate_delay]
    simp [writes]
  · split <;>
    · rw [writes_append, waitForNext, writes_replicate_delay]
      simp [writes]

theorem run_cons (env : BusEnv) (c : ApiCall) (cs : List ApiCall) (s : DState) :
    run env (c :: cs) s =
      ((run env cs (step env s c).1).1,
       (step env s c).2 ++ (run env cs (step env s c).1).2) := rfl

/-- One public API call keeps the cached byte below 256, preserves
reserved bit 1, and only transmits bytes with bit 1 set. -/
theorem step_bit1 (env : BusEnv) (s : DState) (c : ApiCall)
    (h1 : s.reg < 256) (h2 : Nat.testBit s.reg 1 = true) :
    (step env s c).1.reg < 256 ∧ Nat.testBit (step env s c).1.reg 1 = true ∧
    ∀ b ∈ writes (step env s c).2, Nat.testBit b 1 = true := by
  cases c with
  | beginC it =>
    have heq : setField s.reg 2 2 it = setField s.reg 2 2 (it % 2 ^ 2) :=
      setField_mod s.reg 2 2 it
    have h := setField_IT_bit1 s.reg h1 (it % 2 ^ 2) (Nat.mod_lt _ (by norm_num))
    have hb1 : Nat.testBit (setField s.reg 2 2 it) 1 = true := by
      rw [heq, h.1, h2]
    have hlt : setField s.reg 2 2 it < 256 := by rw [heq]; exact h.2
    refine ⟨hlt, hb1, ?_⟩
    intro b hb
    have hbs : b = setField s.reg 2 2 it := by
      simpa [step, VEML6070.begin, clearAck, writeCommand, writes] using hb
    rw [hbs]; exact hb1
  | setInterruptC st lv =>
    have h5 := setField_ACK_bit1 s.reg h1 (bitOfBool st) (bitOfBool_lt st)
    have h4 := setField_THD_bit1 _ h5.2 (bitOfBool lv) (bitOfBool_lt lv)
    have hb1 :
        Nat.testBit (setField (setField s.reg 5 1 (bitOfBool st)) 4 1 (bitOfBool lv)) 1
          = true := by
      rw [h4.1, h5.1, h2]
    refine ⟨h4.2, hb1, ?_⟩
    intro b hb
    have hbs : b = setField (setField s.reg 5 1 (bitOfBool st)) 4 1 (bitOfBool lv) := by
      simpa [step, setInterrupt, clearAck, writeCommand, writes] using hb
    rw [hbs]; exact hb1
  | sleepC st =>
    have h0 := setField_SD_bit1 s.reg h1 (bitOfBool st) (bitOfBool_lt st)
    have hb1 : Nat.testBit (setField s.reg 0 1 (bitOfBool st)) 1 = true := by
      rw [h0.1, h2]
    refine ⟨h0.2, hb1, ?_⟩
    intro b hb
    have hbs : b = setField s.reg 0 1 (bitOfBool st) := by
      simpa [step, sleep, writeCommand, writes] using hb
    rw [hbs]; exact hb1
  | readUVC =>
    refine ⟨?_, ?_, ?_⟩
    · show (readUV env s).2.1.reg < 256
      rw [readUV_reg]; exact h1
    · show Nat.testBit (readUV env s).2.1.reg 1 = true
      rw [readUV_reg]; exact h2
    · intro b hb
      exact absurd hb (by
        show b ∉ writes (readUV env s).2.2
        rw [writes_readUV]
        exact List.not_mem_nil b)
  | clearAckC =>
    exact ⟨h1, h2, by simp [step, clearAck, writes]⟩

/-- Any sequence of public API calls keeps the cached byte below 256,
preserves reserved bit 1, and only transmits bytes with bit 1 set. -/
theorem run_bit1 (env : BusEnv) (calls : List ApiCall) (s : DState)
    (h1 : s.reg < 256) (h2 : Nat.testBit s.reg 1 = true) :
    (run env calls s).1.reg < 256 ∧ Nat.testBit (run env calls s).1.reg 1 = true ∧
    ∀ b ∈ writes (run env calls s).2, Nat.testBit b 1 = true := by
  induction calls generalizing s with
  | nil => exact ⟨h1, h2, by simp [run, writes]⟩
  | cons c cs ih =>
    obtain ⟨g1, g2, g3⟩ := step_bit1 env s c h1 h2
    obtain ⟨r1, r2, r3⟩ := ih (step env s c).1 g1 g2
    rw [run_cons]
    refine ⟨r1, r2, ?_⟩
    intro b hb
    rw [writes_append, List.mem_append] at hb
    cases hb with
    | inl hmem => exact g3 b hmem
    | inr hmem => exact r3 b hmem

/-- C3: starting from a freshly constructed driver, after every
sequence of public API calls (`begin`, `setInterrupt`, `sleep`,
`readUV`, `clearAck`) bit 1 of the cached command byte is 1, and every
command byte that was transmitted to the device has bit 1 set. -/
theorem C3_reserved_bit (env : BusEnv) (calls : List ApiCall) :
    Nat.testBit (run env calls initState).1.reg 1 = true ∧
    ∀ b ∈ writes (run env calls initState).2, Nat.testBit b 1 = true := by
  obtain ⟨_, h2, h3⟩ := run_bit1 env calls initState (by decide) (by decide)
  exact ⟨h2, h3⟩

/-- Witness for `C3_reserved_bit`: one call `sleep true` from the fresh
state transmits the byte `0x03`, which indeed has bit 1 set. -/
theorem C3_reserved_bit_witness :
    3 ∈ writes (run envOk [ApiCall.sleepC true] initState).2 ∧
    Nat.testBit 3 1 = true :=
  ⟨by decide, (C3_reserved_bit envOk [ApiCall.sleepC true]).2 3 (by decide)⟩

end VEML6070
